import Mathlib

/-!
Shallow embedding of the AquaOmics pipeline (src/api.py).

The pipeline's numeric core is embedded over exact rationals: a pandas
float matrix cell becomes a rational, NaN-producing computations return
entries whose undefinedness is tracked explicitly, and the real value a
Pearson cell denotes is recovered through an interpretation into the
reals.  File writes (matplotlib savefig) are embedded as updates of an
explicit file-system state; random draws (numpy normal, exponential,
lognormal, uniform) are embedded as draws from an explicit random source
whose support matches numpy's documentation.
-/

/--
A cell of the matrix produced by pandas DataFrame.corr, as nancorr
computes it: the centred cross-sum cov = sum((x-mx)*(y-my)), the centred
self-sums vx = sum((x-mx)^2) and vy = sum((y-my)^2).  The float pandas
stores in that cell is cov / sqrt(vx * vy), or NaN when the divisor is
zero (a zero-variance column).  Keeping the triple instead of the
irrational quotient keeps the embedding computable; the denoted real is
recovered by CorrEntry.val below.
-/
structure CorrEntry where
  cov : ℚ
  vx : ℚ
  vy : ℚ
  deriving Repr, DecidableEq

namespace CorrEntry

/-- The cell is pandas NaN: nancorr stores NaN exactly when the divisor
sqrt(vx * vy) is zero; for cells coming from data vx, vy ≥ 0, so this is
vx * vy ≤ 0. -/
def isNaN (e : CorrEntry) : Bool := decide (e.vx * e.vy ≤ 0)

/-- The test `corr_matrix.iloc[i, j] > t` applied after `.abs()`
(src/api.py line 74 and 82): false on a NaN cell (IEEE comparison with
NaN is false), and otherwise |cov / sqrt(vx*vy)| > t, expressed over the
rationals by clearing the square root. -/
def absGt (e : CorrEntry) (t : ℚ) : Bool :=
  !e.isNaN && (decide (t < 0) || decide (t ^ 2 * (e.vx * e.vy) < e.cov ^ 2))

/-- The real number the cell denotes (meaningful when not NaN). -/
noncomputable def val (e : CorrEntry) : ℝ :=
  (e.cov : ℝ) / Real.sqrt ((e.vx : ℝ) * (e.vy : ℝ))

end CorrEntry

/-- Column mean over samples 0, ..., m-1, as nancorr computes it. -/
def colMean (m : ℕ) (x : ℕ → ℚ) : ℚ := (∑ k ∈ Finset.range m, x k) / m

/-- Centred cross-sum over samples 0, ..., m-1 (nancorr's covxy; the
1/(n-1) factors cancel in the correlation quotient and are omitted by
nancorr itself). -/
def covSum (m : ℕ) (x y : ℕ → ℚ) : ℚ :=
  ∑ k ∈ Finset.range m, (x k - colMean m x) * (y k - colMean m y)

/-- The Pearson cell for a pair of columns. -/
def corrEntryOf (m : ℕ) (x y : ℕ → ℚ) : CorrEntry :=
  ⟨covSum m x y, covSum m x x, covSum m y y⟩

/-- A pandas DataFrame of omics measurements: an ordered list of feature
(column) labels, a sample count, and for each feature index its column
of sample values.  Indices at or beyond the label count are never
consulted by the pipeline. -/
structure DataMatrix where
  featureLabels : List String
  nSamples : ℕ
  col : ℕ → ℕ → ℚ

/-- data.shape[1]: the number of feature columns. -/
def DataMatrix.nFeatures (d : DataMatrix) : ℕ := d.featureLabels.length

/-- data.corr() (src/api.py lines 39 and 74): the feature-by-feature
Pearson matrix. -/
def DataMatrix.corr (d : DataMatrix) (i j : ℕ) : CorrEntry :=
  corrEntryOf d.nSamples (d.col i) (d.col j)

/-- Centred self-sum of feature i's column; zero exactly when the column
has zero variance. -/
def DataMatrix.varSum (d : DataMatrix) (i : ℕ) : ℚ :=
  covSum d.nSamples (d.col i) (d.col i)

/--
The edge-building loop of create_network_diagram (src/api.py lines
80-83):

  for i in range(n):
      for j in range(i+1, n):
          if corr_matrix.iloc[i, j] > 0.7:
              G.add_edge(index[i], columns[j])

run on corr_matrix = data.corr().abs() with threshold t.  Feature labels
are unique and in matrix order, so nodes are identified with their
column indices.  networkx Graph.add_edge stores each unordered pair
once; since the loop visits each pair (i, j) with i < j exactly once,
the produced list is that edge set in insertion order.
-/
def buildEdges (n : ℕ) (entry : ℕ → ℕ → CorrEntry) (t : ℚ) : List (ℕ × ℕ) :=
  (List.range n).flatMap fun i =>
    (List.range' (i + 1) (n - (i + 1))).filterMap fun j =>
      if (entry i j).absGt t then some (i, j) else none

/-- The node set of the networkx graph built by the loop above: add_edge
registers exactly the endpoints of added edges, so the nodes are the
deduplicated endpoints. -/
def graphNodes (edges : List (ℕ × ℕ)) : List ℕ :=
  (edges.flatMap fun e => [e.1, e.2]).dedup

/-- The simulated differential-expression table drawn by
create_volcano_plot (src/api.py lines 52-53). -/
structure DETable where
  log_fold_change : List ℚ
  p_values : List ℚ
  deriving Repr, DecidableEq

/--
The simulation step of create_volcano_plot:
  log_fold_change = np.random.normal(0, 2, feature_count)
  p_values = np.random.uniform(0, 1, feature_count)
embedded by reading feature_count consecutive draws from each random
source.  A normal source may take any finite value; a faithful uniform
source for np.random.uniform(0, 1, ...) takes values in the half-open
interval [0, 1) (numpy documents uniform(low, high) as sampling
[low, high)), captured by the predicate UniformSource below.
-/
def simulate_de (feature_count : ℕ) (lfcSrc pSrc : ℕ → ℚ) : DETable :=
  ⟨(List.range feature_count).map lfcSrc, (List.range feature_count).map pSrc⟩

/-- The support constraint of a np.random.uniform(0, 1, ...) stream:
every draw lies in [0, 1). -/
def UniformSource (pSrc : ℕ → ℚ) : Prop := ∀ k, 0 ≤ pSrc k ∧ pSrc k < 1

/-- The content written by one savefig call: the rendered derived
structure together with its title.  A successful savefig always writes
a complete (hence non-empty) raster image of this content. -/
inductive Artifact where
  | heatmap (n : ℕ) (corr : ℕ → ℕ → CorrEntry) (title : String)
  | volcano (table : DETable) (title : String)
  | network (edges : List (ℕ × ℕ)) (title : String)

/-- The file system visible to the pipeline: each path maps to the
artifact stored there and its size in bytes, or to none when absent. -/
def FS := String → Option (Artifact × ℕ)

/--
plt.savefig(filename) followed by plt.close(): writes the encoding of
the current figure to the path, overwriting any previous file there;
raises (modelled as none) exactly when the path is unwritable.  The
environment parameter w says which paths are writable and enc gives the
byte size of the encoded image of each artifact.
-/
def savefig (w : String → Bool) (enc : Artifact → ℕ) (fs : FS)
    (filename : String) (a : Artifact) : Option FS :=
  if w filename then
    some (fun p => if p = filename then some (a, enc a) else fs p)
  else none

/-- create_heatmap (src/api.py lines 34-43): renders sns.heatmap of
data.corr() and saves it. -/
def create_heatmap (w : String → Bool) (enc : Artifact → ℕ)
    (data : DataMatrix) (title filename : String) (fs : FS) : Option FS :=
  savefig w enc fs filename (Artifact.heatmap data.nFeatures data.corr title)

/-- create_volcano_plot (src/api.py lines 45-67): draws the simulated
log-fold-changes and p-values for data.shape[1] features, scatters them,
and saves the figure. -/
def create_volcano_plot (w : String → Bool) (enc : Artifact → ℕ)
    (data : DataMatrix) (lfcSrc pSrc : ℕ → ℚ) (title filename : String)
    (fs : FS) : Option FS :=
  savefig w enc fs filename
    (Artifact.volcano (simulate_de data.nFeatures lfcSrc pSrc) title)

/-- create_network_diagram (src/api.py lines 69-93): builds the graph
from data.corr().abs() at threshold 0.7 and saves its drawing. -/
def create_network_diagram (w : String → Bool) (enc : Artifact → ℕ)
    (data : DataMatrix) (title filename : String) (fs : FS) : Option FS :=
  savefig w enc fs filename
    (Artifact.network (buildEdges data.nFeatures data.corr (7/10)) title)

/-- The random draws one pipeline run consumes: the three synthetic
matrices (numpy normal, exponential and lognormal variates) and the two
volcano-plot streams. -/
structure RandomSource where
  gene_expression : ℕ → ℕ → ℚ
  metabolite_levels : ℕ → ℕ → ℚ
  protein_abundance : ℕ → ℕ → ℚ
  volcano_lfc : ℕ → ℚ
  volcano_p : ℕ → ℚ

/-- The three omics DataFrames. -/
structure OmicsData where
  genomics : DataMatrix
  metabolomics : DataMatrix
  proteomics : DataMatrix

/-- generate_sample_omics_data (src/api.py lines 9-32): 100 genes, 50
metabolites and 75 proteins, each over 50 samples, filled with fresh
draws from the random source.  data.col i k is the value of feature i at
sample row k. -/
def generate_sample_omics_data (rnd : RandomSource) : OmicsData :=
  { genomics :=
      ⟨(List.range 100).map (fun i => "Gene_" ++ toString (i + 1)), 50,
        rnd.gene_expression⟩
    metabolomics :=
      ⟨(List.range 50).map (fun i => "Metabolite_" ++ toString (i + 1)), 50,
        rnd.metabolite_levels⟩
    proteomics :=
      ⟨(List.range 75).map (fun i => "Protein_" ++ toString (i + 1)), 50,
        rnd.protein_abundance⟩ }

/-- The dictionary process_omics_data returns on a normal run. -/
structure ProcessResult where
  message : String
  visualizations : List String
  deriving Repr, DecidableEq

/-- os.path.join('results', name). -/
def resultsPath (name : String) : String := "results/" ++ name

/--
process_omics_data (src/api.py lines 95-139).  os.makedirs only ensures
the directory exists and touches no file, so it has no effect on the
file map.  Both branches of the file_path test call
generate_sample_omics_data (the else branch's parsing is an unwritten
TODO), then the three renders run in sequence; an exception in any
render propagates immediately (result none), leaving the files written
so far in place.  On a normal run the function returns the literal
dictionary of lines 131-139.
-/
def process_omics_data (w : String → Bool) (enc : Artifact → ℕ)
    (rnd : RandomSource) (fs : FS) (file_path : Option String) :
    FS × Option ProcessResult :=
  let omics_data :=
    match file_path with
    | none => generate_sample_omics_data rnd
    | some _ => generate_sample_omics_data rnd
  match create_heatmap w enc omics_data.genomics
      "Genomics Data Correlation Heatmap"
      (resultsPath "genomics_heatmap.png") fs with
  | none => (fs, none)
  | some fs1 =>
    match create_heatmap w enc omics_data.metabolomics
        "Metabolomics Data Correlation Heatmap"
        (resultsPath "metabolomics_heatmap.png") fs1 with
    | none => (fs1, none)
    | some fs2 =>
      match create_volcano_plot w enc omics_data.proteomics
          rnd.volcano_lfc rnd.volcano_p
          "Proteomics Differential Expression Volcano Plot"
          (resultsPath "proteomics_volcano.png") fs2 with
      | none => (fs2, none)
      | some fs3 =>
        (fs3, some
          { message := "Omics data processed successfully"
            visualizations :=
              ["genomics_heatmap.png", "metabolomics_heatmap.png",
               "proteomics_volcano.png"] })

/-- The file at the path exists and is non-empty. -/
def fileNonempty (fs : FS) (p : String) : Bool :=
  match fs p with
  | none => false
  | some (_, size) => decide (0 < size)

/-- A degenerate random source (all draws zero) used to run the
pipeline on concrete inputs. -/
def rnd0 : RandomSource :=
  ⟨fun _ _ => 0, fun _ _ => 0, fun _ _ => 0, fun _ => 0, fun _ => 0⟩

/-- A two-feature, two-sample matrix whose every column is the constant
3: the zero-variance edge case. -/
def constMatrix : DataMatrix := ⟨["Gene_1", "Gene_2"], 2, fun _ _ => 3⟩

/-- A one-feature, two-sample matrix whose column takes two distinct
values, so the column has non-zero variance. -/
def rampMatrix : DataMatrix := ⟨["Gene_1"], 2, fun _ k => k⟩

/-- A two-feature correlation matrix whose every cell is defined with
absolute value 9/10. -/
def hiCorr : ℕ → ℕ → CorrEntry := fun _ _ => ⟨9/10, 1, 1⟩

/-- An all-NaN correlation matrix (every cell has a zero divisor). -/
def nanCorr : ℕ → ℕ → CorrEntry := fun _ _ => ⟨0, 0, 0⟩

/-! ## Helper lemmas -/

theorem mem_buildEdges_iff {n : ℕ} {entry : ℕ → ℕ → CorrEntry} {t : ℚ}
    {i j : ℕ} :
    (i, j) ∈ buildEdges n entry t ↔
      i < j ∧ j < n ∧ (entry i j).absGt t = true := by
  simp only [buildEdges, List.mem_flatMap, List.mem_range, List.mem_filterMap,
    List.mem_range'_1]
  constructor
  · rintro ⟨a, ha, b, hb, hab⟩
    split at hab
    · next hc =>
      rw [Option.some_inj, Prod.mk.injEq] at hab
      obtain ⟨rfl, rfl⟩ := hab
      exact ⟨by omega, by omega, hc⟩
    · simp at hab
  · rintro ⟨hij, hjn, habs⟩
    refine ⟨i, by omega, j, ⟨by omega, by omega⟩, ?_⟩
    simp [habs]

theorem isNaN_false_iff {e : CorrEntry} :
    e.isNaN = false ↔ 0 < e.vx * e.vy := by
  simp [CorrEntry.isNaN]

theorem absGt_of_isNaN {e : CorrEntry} (h : e.isNaN = true) (t : ℚ) :
    e.absGt t = false := by
  simp [CorrEntry.absGt, h]

theorem absGt_mono {e : CorrEntry} {t1 t2 : ℚ} (h : t1 ≤ t2)
    (h2 : e.absGt t2 = true) : e.absGt t1 = true := by
  simp only [CorrEntry.absGt, Bool.and_eq_true, Bool.or_eq_true,
    Bool.not_eq_true', decide_eq_true_eq] at h2 ⊢
  obtain ⟨hn, hor⟩ := h2
  refine ⟨hn, ?_⟩
  have hV : 0 < e.vx * e.vy := isNaN_false_iff.mp hn
  by_cases ht1 : t1 < 0
  · exact Or.inl ht1
  · push_neg at ht1
    rcases hor with ht2 | hlt
    · exact absurd (lt_of_le_of_lt h ht2) (not_lt.mpr ht1)
    · refine Or.inr (lt_of_le_of_lt ?_ hlt)
      have hsq : t1 ^ 2 ≤ t2 ^ 2 := pow_le_pow_left₀ ht1 h 2
      exact mul_le_mul_of_nonneg_right hsq hV.le

theorem abs_val_of_not_nan {e : CorrEntry} (h : e.isNaN = false) :
    |e.val| = |(e.cov : ℝ)| / Real.sqrt ((e.vx : ℝ) * (e.vy : ℝ)) := by
  have hV : (0 : ℝ) < (e.vx : ℝ) * (e.vy : ℝ) := by
    exact_mod_cast isNaN_false_iff.mp h
  rw [CorrEntry.val, abs_div, abs_of_pos (Real.sqrt_pos.mpr hV)]

theorem absGt_iff_val {e : CorrEntry} (h : e.isNaN = false) (t : ℚ) :
    (e.absGt t = true ↔ (t : ℝ) < |e.val|) := by
  have hV : 0 < e.vx * e.vy := isNaN_false_iff.mp h
  have hVR : (0 : ℝ) < (e.vx : ℝ) * (e.vy : ℝ) := by exact_mod_cast hV
  have hs : 0 < Real.sqrt ((e.vx : ℝ) * (e.vy : ℝ)) := Real.sqrt_pos.mpr hVR
  rw [abs_val_of_not_nan h, lt_div_iff₀ hs]
  simp only [CorrEntry.absGt, h, Bool.not_false, Bool.true_and,
    Bool.or_eq_true, decide_eq_true_eq]
  constructor
  · rintro (ht | hlt)
    · calc (t : ℝ) * Real.sqrt ((e.vx : ℝ) * (e.vy : ℝ)) < 0 :=
            mul_neg_of_neg_of_pos (by exact_mod_cast ht) hs
        _ ≤ |(e.cov : ℝ)| := abs_nonneg _
    · by_cases ht : t < 0
      · calc (t : ℝ) * Real.sqrt ((e.vx : ℝ) * (e.vy : ℝ)) < 0 :=
              mul_neg_of_neg_of_pos (by exact_mod_cast ht) hs
          _ ≤ |(e.cov : ℝ)| := abs_nonneg _
      · push_neg at ht
        have htR : (0 : ℝ) ≤ (t : ℝ) := by exact_mod_cast ht
        have hlt' : ((t : ℝ) ^ 2) * ((e.vx : ℝ) * (e.vy : ℝ)) <
            (e.cov : ℝ) ^ 2 := by exact_mod_cast hlt
        have h1 : ((t : ℝ) * Real.sqrt ((e.vx : ℝ) * (e.vy : ℝ))) ^ 2 <
            |(e.cov : ℝ)| ^ 2 := by
          rw [mul_pow, Real.sq_sqrt hVR.le, sq_abs]
          exact hlt'
        exact lt_of_pow_lt_pow_left₀ 2 (abs_nonneg _) h1
  · intro hlt
    by_cases ht : t < 0
    · exact Or.inl ht
    · push_neg at ht
      refine Or.inr ?_
      have htR : (0 : ℝ) ≤ (t : ℝ) := by exact_mod_cast ht
      have h1 : ((t : ℝ) * Real.sqrt ((e.vx : ℝ) * (e.vy : ℝ))) ^ 2 <
          |(e.cov : ℝ)| ^ 2 :=
        pow_lt_pow_left₀ hlt (mul_nonneg htR hs.le) (by decide)
      rw [mul_pow, Real.sq_sqrt hVR.le, sq_abs] at h1
      exact_mod_cast h1

example : simulate_de 2 (fun k => k) (fun k => k / 2) =
    ⟨[0, 1], [0, 1/2]⟩ := by
  norm_num [simulate_de, List.range_succ]

example : buildEdges 2 (fun _ _ => ⟨9/10, 1, 1⟩) (7/10) = [(0, 1)] := by
  norm_num [buildEdges, CorrEntry.absGt, CorrEntry.isNaN, List.range_succ,
    List.filterMap_cons]

example : buildEdges 3 (fun _ _ => ⟨0, 0, 0⟩) (7/10) = [] := by
  norm_num [buildEdges, CorrEntry.absGt, CorrEntry.isNaN, List.range_succ,
    List.filterMap_cons]

theorem covSum_comm (m : ℕ) (x y : ℕ → ℚ) : covSum m x y = covSum m y x := by
  unfold covSum
  exact Finset.sum_congr rfl (fun k _ => by ring)

theorem covSum_self_nonneg (m : ℕ) (x : ℕ → ℚ) : 0 ≤ covSum m x x :=
  Finset.sum_nonneg (fun _ _ => mul_self_nonneg _)

theorem covSum_const_left {m : ℕ} {x : ℕ → ℚ} {c : ℚ}
    (hx : ∀ k, k < m → x k = c) (y : ℕ → ℚ) : covSum m x y = 0 := by
  rcases Nat.eq_zero_or_pos m with hm | hm
  · simp [covSum, hm]
  · have hmean : colMean m x = c := by
      unfold colMean
      rw [Finset.sum_congr rfl (fun k hk => hx k (Finset.mem_range.mp hk)),
        Finset.sum_const, Finset.card_range, nsmul_eq_mul]
      exact mul_div_cancel_left₀ c (by exact_mod_cast hm.ne')
    unfold covSum
    apply Finset.sum_eq_zero
    intro k hk
    rw [hx k (Finset.mem_range.mp hk), hmean, sub_self, zero_mul]

theorem val_diag {v : ℚ} (hv : 0 < v) : CorrEntry.val ⟨v, v, v⟩ = 1 := by
  have hvR : (0 : ℝ) < (v : ℝ) := by exact_mod_cast hv
  unfold CorrEntry.val
  simp only
  rw [Real.sqrt_mul_self hvR.le]
  exact div_self hvR.ne'

theorem val_corrEntryOf_comm (m : ℕ) (x y : ℕ → ℚ) :
    (corrEntryOf m x y).val = (corrEntryOf m y x).val := by
  unfold corrEntryOf CorrEntry.val
  simp only
  rw [covSum_comm m x y, mul_comm]

theorem isNaN_corrEntryOf_comm (m : ℕ) (x y : ℕ → ℚ) :
    (corrEntryOf m x y).isNaN = (corrEntryOf m y x).isNaN := by
  unfold corrEntryOf CorrEntry.isNaN
  simp only [mul_comm]

theorem buildEdges_nodup (n : ℕ) (entry : ℕ → ℕ → CorrEntry) (t : ℚ) :
    (buildEdges n entry t).Nodup := by
  unfold buildEdges
  rw [List.nodup_flatMap]
  constructor
  · intro i _
    refine List.Nodup.filterMap ?_ (List.nodup_range' _ _)
    intro a b p hp hp'
    rw [Option.mem_def] at hp hp'
    split at hp
    · split at hp'
      · have ha := Option.some_inj.mp hp
        have hb := Option.some_inj.mp hp'
        rw [← hb] at ha
        exact (Prod.mk.injEq _ _ _ _).mp ha |>.2
      · simp at hp'
    · simp at hp
  · have hlt : List.Pairwise (· < ·) (List.range n) := List.pairwise_lt_range n
    refine hlt.imp ?_
    intro i i' hii'
    intro p hp hp'
    rw [List.mem_filterMap] at hp hp'
    obtain ⟨a, _, ha⟩ := hp
    obtain ⟨b, _, hb⟩ := hp'
    have hpi : p.1 = i := by
      split at ha
      · rw [← Option.some_inj.mp ha]
      · simp at ha
    have hpi' : p.1 = i' := by
      split at hb
      · rw [← Option.some_inj.mp hb]
      · simp at hb
    omega

theorem mem_graphNodes {edges : List (ℕ × ℕ)} {v : ℕ} :
    v ∈ graphNodes edges ↔ ∃ e ∈ edges, v = e.1 ∨ v = e.2 := by
  simp [graphNodes, List.mem_dedup, List.mem_flatMap, eq_comm]

theorem process_fail1 {w : String → Bool} {enc : Artifact → ℕ}
    {rnd : RandomSource} {fs : FS} {fp : Option String}
    (h1 : w (resultsPath "genomics_heatmap.png") = false) :
    process_omics_data w enc rnd fs fp = (fs, none) := by
  unfold process_omics_data create_heatmap savefig
  simp [h1]

theorem process_fail2 {w : String → Bool} {enc : Artifact → ℕ}
    {rnd : RandomSource} {fs : FS} {fp : Option String}
    (h1 : w (resultsPath "genomics_heatmap.png") = true)
    (h2 : w (resultsPath "metabolomics_heatmap.png") = false) :
    (process_omics_data w enc rnd fs fp).2 = none := by
  unfold process_omics_data create_heatmap savefig
  simp [h1, h2]

theorem process_fail3 {w : String → Bool} {enc : Artifact → ℕ}
    {rnd : RandomSource} {fs : FS} {fp : Option String}
    (h1 : w (resultsPath "genomics_heatmap.png") = true)
    (h2 : w (resultsPath "metabolomics_heatmap.png") = true)
    (h3 : w (resultsPath "proteomics_volcano.png") = false) :
    (process_omics_data w enc rnd fs fp).2 = none := by
  unfold process_omics_data create_heatmap create_volcano_plot savefig
  simp [h1, h2, h3]

theorem process_success_result {w : String → Bool} {enc : Artifact → ℕ}
    {rnd : RandomSource} {fs : FS} {fp : Option String}
    (h1 : w (resultsPath "genomics_heatmap.png") = true)
    (h2 : w (resultsPath "metabolomics_heatmap.png") = true)
    (h3 : w (resultsPath "proteomics_volcano.png") = true) :
    (process_omics_data w enc rnd fs fp).2 =
      some ⟨"Omics data processed successfully",
        ["genomics_heatmap.png", "metabolomics_heatmap.png",
         "proteomics_volcano.png"]⟩ := by
  unfold process_omics_data create_heatmap create_volcano_plot savefig
  simp [h1, h2, h3]

theorem process_success_files {w : String → Bool} {enc : Artifact → ℕ}
    {rnd : RandomSource} {fs : FS} {fp : Option String}
    (henc : ∀ a, 0 < enc a)
    (h1 : w (resultsPath "genomics_heatmap.png") = true)
    (h2 : w (resultsPath "metabolomics_heatmap.png") = true)
    (h3 : w (resultsPath "proteomics_volcano.png") = true) :
    fileNonempty (process_omics_data w enc rnd fs fp).1
        (resultsPath "genomics_heatmap.png") = true
    ∧ fileNonempty (process_omics_data w enc rnd fs fp).1
        (resultsPath "metabolomics_heatmap.png") = true
    ∧ fileNonempty (process_omics_data w enc rnd fs fp).1
        (resultsPath "proteomics_volcano.png") = true := by
  unfold process_omics_data create_heatmap create_volcano_plot savefig
  simp only [h1, h2, h3, if_true]
  refine ⟨?_, ?_, ?_⟩ <;>
    simp [fileNonempty, resultsPath, henc _]

theorem process_fail3_files {w : String → Bool} {enc : Artifact → ℕ}
    {rnd : RandomSource} {fs : FS} {fp : Option String}
    (henc : ∀ a, 0 < enc a)
    (h1 : w (resultsPath "genomics_heatmap.png") = true)
    (h2 : w (resultsPath "metabolomics_heatmap.png") = true)
    (h3 : w (resultsPath "proteomics_volcano.png") = false) :
    fileNonempty (process_omics_data w enc rnd fs fp).1
        (resultsPath "genomics_heatmap.png") = true
    ∧ fileNonempty (process_omics_data w enc rnd fs fp).1
        (resultsPath "metabolomics_heatmap.png") = true := by
  unfold process_omics_data create_heatmap create_volcano_plot savefig
  simp only [h1, h2, h3, if_true]
  refine ⟨?_, ?_⟩ <;>
    simp [fileNonempty, resultsPath, henc _]

theorem process_some_w {w : String → Bool} {enc : Artifact → ℕ}
    {rnd : RandomSource} {fs : FS} {fp : Option String} {r : ProcessResult}
    (h : (process_omics_data w enc rnd fs fp).2 = some r) :
    w (resultsPath "genomics_heatmap.png") = true
    ∧ w (resultsPath "metabolomics_heatmap.png") = true
    ∧ w (resultsPath "proteomics_volcano.png") = true := by
  cases h1 : w (resultsPath "genomics_heatmap.png")
  · rw [process_fail1 h1] at h
    simp at h
  cases h2 : w (resultsPath "metabolomics_heatmap.png")
  · rw [process_fail2 h1 h2] at h
    simp at h
  cases h3 : w (resultsPath "proteomics_volcano.png")
  · rw [process_fail3 h1 h2 h3] at h
    simp at h
  exact ⟨rfl, rfl, rfl⟩

theorem process_result_eq {w : String → Bool} {enc : Artifact → ℕ}
    {rnd : RandomSource} {fs : FS} {fp : Option String} {r : ProcessResult}
    (h : (process_omics_data w enc rnd fs fp).2 = some r) :
    r = ⟨"Omics data processed successfully",
      ["genomics_heatmap.png", "metabolomics_heatmap.png",
       "proteomics_volcano.png"]⟩ := by
  obtain ⟨h1, h2, h3⟩ := process_some_w h
  rw [process_success_result h1 h2 h3] at h
  exact (Option.some_inj.mp h).symm

/-! ## Claim theorems -/

/-- Claim C2: for every correlation matrix, the graph builder adds an
edge for exactly the pairs (i, j) with i < j (in row/column order)
whose cell passes the absolute-correlation test at threshold 0.7; on a
defined cell that test is |corr| > 0.7, a NaN cell never passes it (so
an all-NaN matrix yields no edges, and buildEdges is total, hence no
crash), and no self-loop is ever added. -/
theorem claim_C2_graph_builder (n : ℕ) (entry : ℕ → ℕ → CorrEntry)
    (i j : ℕ) :
    ((i, j) ∈ buildEdges n entry (7/10) ↔
      i < j ∧ j < n ∧ (entry i j).absGt (7/10) = true)
    ∧ ((entry i j).isNaN = false →
        ((entry i j).absGt (7/10) = true ↔
          (((7 : ℚ)/10 : ℚ) : ℝ) < |(entry i j).val|))
    ∧ ((entry i j).isNaN = true → (entry i j).absGt (7/10) = false)
    ∧ ((i, i) ∉ buildEdges n entry (7/10))
    ∧ ((∀ a b, (entry a b).isNaN = true) → buildEdges n entry (7/10) = []) := by
  refine ⟨mem_buildEdges_iff, fun h => absGt_iff_val h (7/10),
    fun h => absGt_of_isNaN h _, ?_, ?_⟩
  · intro hmem
    exact absurd (mem_buildEdges_iff.mp hmem).1 (lt_irrefl i)
  · intro hnan
    rw [List.eq_nil_iff_forall_not_mem]
    rintro ⟨a, b⟩ hmem
    have := (mem_buildEdges_iff.mp hmem).2.2
    rw [absGt_of_isNaN (hnan a b)] at this
    simp at this

/-- Claim C2 witness: a defined cell with |corr| = 9/10 > 7/10 produces
the edge (0, 1) in a 2-feature matrix, and an all-NaN cell fails the
threshold test. -/
theorem claim_C2_witness :
    (0, 1) ∈ buildEdges 2 hiCorr (7/10)
    ∧ CorrEntry.absGt (nanCorr 0 0) (7/10) = false :=
  ⟨(claim_C2_graph_builder 2 hiCorr 0 1).1.mpr
      ⟨by norm_num, by norm_num,
        by norm_num [hiCorr, CorrEntry.absGt, CorrEntry.isNaN]⟩,
   (claim_C2_graph_builder 1 nanCorr 0 0).2.2.1
      (by norm_num [nanCorr, CorrEntry.isNaN])⟩

/-- Claim C4: for every modality matrix, the correlation matrix is
symmetric — cell (i, j) and cell (j, i) denote the same value and have
the same NaN status — and every diagonal cell of a feature whose column
has non-zero variance equals 1.0. -/
theorem claim_C4_corr_symm_diag (d : DataMatrix) (i j : ℕ) :
    ((d.corr i j).val = (d.corr j i).val
      ∧ (d.corr i j).isNaN = (d.corr j i).isNaN)
    ∧ (d.varSum i ≠ 0 → (d.corr i i).val = 1) := by
  refine ⟨⟨val_corrEntryOf_comm _ _ _, isNaN_corrEntryOf_comm _ _ _⟩, ?_⟩
  intro hv
  have hpos : 0 < d.varSum i :=
    lt_of_le_of_ne (covSum_self_nonneg _ _) (Ne.symm hv)
  exact val_diag hpos

/-- Claim C4 witness: the one-feature matrix whose column is (0, 1) has
non-zero variance, so its diagonal correlation cell is 1. -/
theorem claim_C4_witness :
    rampMatrix.varSum 0 ≠ 0 ∧ (rampMatrix.corr 0 0).val = 1 :=
  ⟨by norm_num [rampMatrix, DataMatrix.varSum, covSum, colMean,
      Finset.sum_range_succ, Finset.sum_range_zero],
   (claim_C4_corr_symm_diag rampMatrix 0 0).2
     (by norm_num [rampMatrix, DataMatrix.varSum, covSum, colMean,
        Finset.sum_range_succ, Finset.sum_range_zero])⟩

/-- Claim C5: graph building is threshold-monotonic — for thresholds
t1 ≤ t2, every edge built at t2 is also built at t1. -/
theorem claim_C5_threshold_mono (n : ℕ) (entry : ℕ → ℕ → CorrEntry)
    (t1 t2 : ℚ) (h : t1 ≤ t2) :
    buildEdges n entry t2 ⊆ buildEdges n entry t1 := by
  intro p hp
  obtain ⟨i, j⟩ := p
  rw [mem_buildEdges_iff] at hp ⊢
  exact ⟨hp.1, hp.2.1, absGt_mono h hp.2.2⟩

/-- Claim C5 witness: an edge present at threshold 9/10 is still
present at threshold 1/2. -/
theorem claim_C5_witness :
    (0, 1) ∈ buildEdges 2 hiCorr (1/2) :=
  claim_C5_threshold_mono 2 hiCorr (1/2) (4/5) (by norm_num)
    (mem_buildEdges_iff.mpr
      ⟨by norm_num, by norm_num,
        by norm_num [hiCorr, CorrEntry.absGt, CorrEntry.isNaN]⟩)

/-- Claim C6: when every feature column of the input matrix is constant
(zero variance), no cell of the derived correlation matrix passes the
0.7 threshold (every cell is NaN), and the built feature graph is empty:
no edges and no nodes. -/
theorem claim_C6_constant_matrix (d : DataMatrix)
    (hconst : ∀ i, i < d.nFeatures →
      ∃ c, ∀ k, k < d.nSamples → d.col i k = c) :
    (∀ i j, i < d.nFeatures → j < d.nFeatures →
        (d.corr i j).absGt (7/10) = false)
    ∧ buildEdges d.nFeatures d.corr (7/10) = []
    ∧ graphNodes (buildEdges d.nFeatures d.corr (7/10)) = [] := by
  have habs : ∀ i j, i < d.nFeatures → (d.corr i j).absGt (7/10) = false := by
    intro i j hi
    obtain ⟨c, hc⟩ := hconst i hi
    have hvx : covSum d.nSamples (d.col i) (d.col i) = 0 := by
      rw [covSum_comm]
      exact covSum_const_left hc _
    apply absGt_of_isNaN
    simp [DataMatrix.corr, corrEntryOf, CorrEntry.isNaN, hvx]
  have hedges : buildEdges d.nFeatures d.corr (7/10) = [] := by
    rw [List.eq_nil_iff_forall_not_mem]
    rintro ⟨i, j⟩ hmem
    rw [mem_buildEdges_iff] at hmem
    obtain ⟨hij, hjn, hgt⟩ := hmem
    rw [habs i j (by omega)] at hgt
    simp at hgt
  refine ⟨fun i j hi _ => habs i j hi, hedges, ?_⟩
  rw [hedges]
  rfl

/-- Claim C6 witness: the all-constant 2-feature matrix yields an empty
edge list. -/
theorem claim_C6_witness :
    buildEdges constMatrix.nFeatures constMatrix.corr (7/10) = [] :=
  (claim_C6_constant_matrix constMatrix
    (fun _ _ => ⟨3, fun _ _ => rfl⟩)).2.1

/-- Claim C7: for every correlation matrix and threshold, the built
graph has no self-loop, no duplicate edge (the edge list is duplicate
free and never contains both orientations of a pair), and its node set
is exactly the features that are an endpoint of at least one edge, so
isolated features are excluded. -/
theorem claim_C7_graph_invariants (n : ℕ) (entry : ℕ → ℕ → CorrEntry)
    (t : ℚ) :
    (∀ i, (i, i) ∉ buildEdges n entry t)
    ∧ (buildEdges n entry t).Nodup
    ∧ (∀ i j, (i, j) ∈ buildEdges n entry t →
        (j, i) ∉ buildEdges n entry t)
    ∧ (∀ v, v ∈ graphNodes (buildEdges n entry t) ↔
        ∃ e ∈ buildEdges n entry t, v = e.1 ∨ v = e.2) := by
  refine ⟨?_, buildEdges_nodup n entry t, ?_, fun v => mem_graphNodes⟩
  · intro i hmem
    exact absurd (mem_buildEdges_iff.mp hmem).1 (lt_irrefl i)
  · intro i j hij hji
    have h1 := (mem_buildEdges_iff.mp hij).1
    have h2 := (mem_buildEdges_iff.mp hji).1
    omega

/-- Claim C7 witness: with the edge (0, 1) present, the reversed pair
(1, 0) is not in the edge list. -/
theorem claim_C7_witness :
    (1, 0) ∉ buildEdges 2 hiCorr (7/10) :=
  (claim_C7_graph_invariants 2 hiCorr (7/10)).2.2.1 0 1
    (mem_buildEdges_iff.mpr
      ⟨by norm_num, by norm_num,
        by norm_num [hiCorr, CorrEntry.absGt, CorrEntry.isNaN]⟩)

/-- Claim C3 counterexample: np.random.uniform(0, 1, ...) samples the
half-open interval [0, 1), so the value 0 is in the support of the
p-value draw; the constant-zero stream is a valid uniform source, the
drawn p-value list for one feature is [0], and 0 is not strictly
greater than 0 — refuting "every drawn p-value is strictly greater
than 0". -/
theorem claim_C3_cex :
    (simulate_de 1 (fun _ => 0) (fun _ => 0)).p_values = [(0 : ℚ)]
    ∧ (0 : ℚ) ∈ (simulate_de 1 (fun _ => 0) (fun _ => 0)).p_values
    ∧ (0 ≤ (0 : ℚ) ∧ (0 : ℚ) < 1)
    ∧ ¬ (0 < (0 : ℚ)) := by
  refine ⟨?_, ?_, by norm_num, by norm_num⟩
  · norm_num [simulate_de]
  · norm_num [simulate_de]

/-- Claim C3 (amended): the simulation draws exactly feature_count
log-fold-changes and exactly feature_count p-values, and every p-value
drawn from a np.random.uniform(0, 1, ...) source lies in the half-open
interval [0, 1) — at least 0 and strictly less than 1 (not, as claimed,
strictly greater than 0 and at most 1). -/
theorem claim_C3_de_draws (feature_count : ℕ) (lfcSrc pSrc : ℕ → ℚ)
    (h : UniformSource pSrc) :
    (simulate_de feature_count lfcSrc pSrc).log_fold_change.length =
      feature_count
    ∧ (simulate_de feature_count lfcSrc pSrc).p_values.length = feature_count
    ∧ ∀ p ∈ (simulate_de feature_count lfcSrc pSrc).p_values,
        0 ≤ p ∧ p < 1 := by
  refine ⟨by simp [simulate_de], by simp [simulate_de], ?_⟩
  intro p hp
  simp only [simulate_de, List.mem_map, List.mem_range] at hp
  obtain ⟨k, _, rfl⟩ := hp
  exact h k

/-- Claim C3 witness: the constant 1/2 stream is a uniform source, and
for 2 features the simulation yields 2 p-values. -/
theorem claim_C3_witness :
    UniformSource (fun _ => (1 : ℚ)/2)
    ∧ (simulate_de 2 (fun _ => 0) (fun _ => (1 : ℚ)/2)).p_values.length = 2 :=
  ⟨fun _ => by norm_num,
   (claim_C3_de_draws 2 (fun _ => 0) (fun _ => (1 : ℚ)/2)
     (fun _ => by norm_num)).2.1⟩

/-- Claim C1: every invocation of process_omics_data that returns
normally returns the manifest of exactly 3 artifact filenames —
genomics_heatmap.png, metabolomics_heatmap.png, proteomics_volcano.png
— and each named file exists and is non-empty under the results
directory after the run (a successful savefig writes a non-empty image:
every encoded artifact has positive byte size). -/
theorem claim_C1_pipeline_run (w : String → Bool) (enc : Artifact → ℕ)
    (rnd : RandomSource) (fs : FS) (file_path : Option String)
    (r : ProcessResult) (henc : ∀ a, 0 < enc a)
    (h : (process_omics_data w enc rnd fs file_path).2 = some r) :
    r.visualizations.length = 3
    ∧ r.visualizations =
        ["genomics_heatmap.png", "metabolomics_heatmap.png",
         "proteomics_volcano.png"]
    ∧ ∀ name ∈ r.visualizations,
        fileNonempty (process_omics_data w enc rnd fs file_path).1
          (resultsPath name) = true := by
  obtain ⟨h1, h2, h3⟩ := process_some_w h
  have hr := process_result_eq h
  subst hr
  obtain ⟨f1, f2, f3⟩ := process_success_files henc h1 h2 h3
  refine ⟨rfl, rfl, ?_⟩
  intro name hname
  simp only [List.mem_cons, List.not_mem_nil, or_false] at hname
  rcases hname with rfl | rfl | rfl
  · exact f1
  · exact f2
  · exact f3

/-- Claim C1 witness: a fully writable file system, unit-size encoder
and the zero random source give a normal run whose first artifact is
written non-empty. -/
theorem claim_C1_witness :
    (∀ a : Artifact, 0 < (fun _ : Artifact => 1) a)
    ∧ ((process_omics_data (fun _ => true) (fun _ => 1) rnd0
          (fun _ => none) none).2 =
        some ⟨"Omics data processed successfully",
          ["genomics_heatmap.png", "metabolomics_heatmap.png",
           "proteomics_volcano.png"]⟩)
    ∧ fileNonempty (process_omics_data (fun _ => true) (fun _ => 1) rnd0
        (fun _ => none) none).1 (resultsPath "genomics_heatmap.png") = true :=
  ⟨fun _ => Nat.one_pos, rfl,
   (claim_C1_pipeline_run (fun _ => true) (fun _ => 1) rnd0 (fun _ => none)
       none
       ⟨"Omics data processed successfully",
        ["genomics_heatmap.png", "metabolomics_heatmap.png",
         "proteomics_volcano.png"]⟩
       (fun _ => Nat.one_pos) rfl).2.2
     "genomics_heatmap.png" (by simp)⟩

/-- Claim C8 counterexample: make only the volcano path unwritable.
The two heatmaps are rendered (their files are on disk and non-empty,
and the volcano file is absent), the third render raises, and the run
returns no ProcessResult at all — the returned value is none, carrying
no partial manifest — refuting "the run reports which artifacts
succeeded (a partial manifest) alongside the failure". -/
theorem claim_C8_cex :
    ((process_omics_data (fun p => !(p == "results/proteomics_volcano.png"))
        (fun _ => 1) rnd0 (fun _ => none) none).2 = none)
    ∧ fileNonempty (process_omics_data
        (fun p => !(p == "results/proteomics_volcano.png"))
        (fun _ => 1) rnd0 (fun _ => none) none).1
        "results/genomics_heatmap.png" = true
    ∧ fileNonempty (process_omics_data
        (fun p => !(p == "results/proteomics_volcano.png"))
        (fun _ => 1) rnd0 (fun _ => none) none).1
        "results/metabolomics_heatmap.png" = true
    ∧ fileNonempty (process_omics_data
        (fun p => !(p == "results/proteomics_volcano.png"))
        (fun _ => 1) rnd0 (fun _ => none) none).1
        "results/proteomics_volcano.png" = false :=
  ⟨rfl, rfl, rfl, rfl⟩

/-- Claim C8 (amended): a manifest is returned exactly when all three
render steps succeed, and then it lists exactly the artifacts actually
written (never one whose render failed); when a later render step fails
after earlier artifacts were rendered, the exception propagates and the
run returns no manifest at all — the completed artifacts remain on disk
but are not reported. -/
theorem claim_C8_manifest_exact (w : String → Bool) (enc : Artifact → ℕ)
    (rnd : RandomSource) (fs : FS) (fp : Option String)
    (henc : ∀ a, 0 < enc a) :
    ((process_omics_data w enc rnd fs fp).2.isSome = true ↔
      (w (resultsPath "genomics_heatmap.png")
        && w (resultsPath "metabolomics_heatmap.png")
        && w (resultsPath "proteomics_volcano.png")) = true)
    ∧ (∀ r, (process_omics_data w enc rnd fs fp).2 = some r →
        r.visualizations =
          ["genomics_heatmap.png", "metabolomics_heatmap.png",
           "proteomics_volcano.png"]
        ∧ ∀ name ∈ r.visualizations,
            fileNonempty (process_omics_data w enc rnd fs fp).1
              (resultsPath name) = true)
    ∧ (w (resultsPath "genomics_heatmap.png") = true →
        w (resultsPath "metabolomics_heatmap.png") = true →
        w (resultsPath "proteomics_volcano.png") = false →
        (process_omics_data w enc rnd fs fp).2 = none
        ∧ fileNonempty (process_omics_data w enc rnd fs fp).1
            (resultsPath "genomics_heatmap.png") = true
        ∧ fileNonempty (process_omics_data w enc rnd fs fp).1
            (resultsPath "metabolomics_heatmap.png") = true) := by
  refine ⟨⟨?_, ?_⟩, ?_, ?_⟩
  · intro hs
    obtain ⟨r, hr⟩ := Option.isSome_iff_exists.mp hs
    obtain ⟨h1, h2, h3⟩ := process_some_w hr
    simp [h1, h2, h3]
  · intro hw
    rw [Bool.and_eq_true, Bool.and_eq_true] at hw
    obtain ⟨⟨h1, h2⟩, h3⟩ := hw
    rw [process_success_result h1 h2 h3]
    rfl
  · intro r hr
    obtain ⟨h1, h2, h3⟩ := process_some_w hr
    have he := process_result_eq hr
    subst he
    obtain ⟨f1, f2, f3⟩ := process_success_files henc h1 h2 h3
    refine ⟨rfl, ?_⟩
    intro name hname
    simp only [List.mem_cons, List.not_mem_nil, or_false] at hname
    rcases hname with rfl | rfl | rfl
    · exact f1
    · exact f2
    · exact f3
  · intro h1 h2 h3
    exact ⟨process_fail3 h1 h2 h3,
      (process_fail3_files henc h1 h2 h3).1,
      (process_fail3_files henc h1 h2 h3).2⟩

/-- Claim C8 witness: with every path writable the run returns a
manifest. -/
theorem claim_C8_witness :
    (∀ a : Artifact, 0 < (fun _ : Artifact => 1) a)
    ∧ ((process_omics_data (fun _ => true) (fun _ => 1) rnd0
        (fun _ => none) none).2.isSome = true) :=
  ⟨fun _ => Nat.one_pos,
   (claim_C8_manifest_exact (fun _ => true) (fun _ => 1) rnd0
       (fun _ => none) none (fun _ => Nat.one_pos)).1.mpr rfl⟩

/-- Claim C9: running process_omics_data with a file path is the very
same computation as running it with None — the uploaded file's content
is never consulted (only renderer writes touch the file system), both
branches of the file_path test generate fresh synthetic data from the
same random source, and the resulting file system and manifest
coincide. -/
theorem claim_C9_upload_ignored (w : String → Bool) (enc : Artifact → ℕ)
    (rnd : RandomSource) (fs : FS) (fp : String) :
    process_omics_data w enc rnd fs (some fp) =
      process_omics_data w enc rnd fs none := rfl

/-- Claim C10: any two invocations of process_omics_data that return
normally return identical values — the fixed status message and the
same three filenames in the same order — regardless of the input
argument, the file system, the writability environment and the random
draws: the returned manifest is a constant. -/
theorem claim_C10_constant_result (w w2 : String → Bool)
    (enc enc2 : Artifact → ℕ) (rnd rnd2 : RandomSource) (fs fs2 : FS)
    (fp fp2 : Option String) (r r2 : ProcessResult)
    (h : (process_omics_data w enc rnd fs fp).2 = some r)
    (h2 : (process_omics_data w2 enc2 rnd2 fs2 fp2).2 = some r2) :
    r = r2
    ∧ r.message = "Omics data processed successfully"
    ∧ r.visualizations =
        ["genomics_heatmap.png", "metabolomics_heatmap.png",
         "proteomics_volcano.png"] := by
  have e1 := process_result_eq h
  have e2 := process_result_eq h2
  subst e1
  rw [e2]
  exact ⟨rfl, rfl, rfl⟩

/-- Claim C10 witness: two normal runs with different inputs (no upload
versus an uploaded path, different writability and random sources)
return the same constant result. -/
theorem claim_C10_witness :
    ((⟨"Omics data processed successfully",
        ["genomics_heatmap.png", "metabolomics_heatmap.png",
         "proteomics_volcano.png"]⟩ : ProcessResult) =
      ⟨"Omics data processed successfully",
        ["genomics_heatmap.png", "metabolomics_heatmap.png",
         "proteomics_volcano.png"]⟩)
    ∧ (⟨"Omics data processed successfully",
        ["genomics_heatmap.png", "metabolomics_heatmap.png",
         "proteomics_volcano.png"]⟩ : ProcessResult).message =
        "Omics data processed successfully"
    ∧ (⟨"Omics data processed successfully",
        ["genomics_heatmap.png", "metabolomics_heatmap.png",
         "proteomics_volcano.png"]⟩ : ProcessResult).visualizations =
        ["genomics_heatmap.png", "metabolomics_heatmap.png",
         "proteomics_volcano.png"] :=
  claim_C10_constant_result (fun _ => true) (fun _ => true) (fun _ => 1)
    (fun _ => 2) rnd0 rnd0 (fun _ => none) (fun _ => none) none
    (some "uploads/data.csv")
    ⟨"Omics data processed successfully",
      ["genomics_heatmap.png", "metabolomics_heatmap.png",
       "proteomics_volcano.png"]⟩
    ⟨"Omics data processed successfully",
      ["genomics_heatmap.png", "metabolomics_heatmap.png",
       "proteomics_volcano.png"]⟩
    rfl rfl
